import Mathlib

/-!
# display_affinity.cc : a Node-API shim over SetWindowDisplayAffinity

Shallow embedding of `src/native/src/display_affinity.cc`.

The file defines two native callbacks (`ExcludeFromCapture`, `IncludeInCapture`) and the
module initialiser `Init`.  Everything they touch that lives outside the file is made
explicit:

* the host runtime (JavaScript values, the argument vector, the exports object, the pending
  JavaScript exception) is modelled by `JsValue`, `Object`, `Heap` and `Env`;
* the node-addon-api wrappers used by the source (`info[0]`, `As<Napi::Number>()`,
  `Int64Value()`, `Napi::Boolean::New`, `Object::Set`) are modelled by the functions of the
  same name; the error policy of `Int64Value` depends on a compile-time switch of
  node-addon-api, which is a field of `BuildConfig`;
* the operating system is a parameter `WinApi σ`: an arbitrary state type `σ` and an arbitrary
  transition function for `SetWindowDisplayAffinity`.  Every OS call made by the embedding is
  appended to a trace.
-/

namespace DisplayAffinity

/-! ## Host runtime values -/

/-- Status codes of the Node-API C layer that the shim can meet. -/
inductive NapiStatus
  | napi_ok
  | napi_number_expected
deriving DecidableEq

/-- The two native callbacks defined in the source file. -/
inductive NativeFn
  | ExcludeFromCapture
  | IncludeInCapture
deriving DecidableEq

/-- JavaScript values as the binding sees them.  A JavaScript number is carried by the
`int64_t` that `napi_get_value_int64` delivers for it (the floating-point conversion itself
is the runtime's and is not modelled).  The carrier is `Int`; statements that depend on the
signed 64-bit range assume it explicitly. -/
inductive JsValue
  | undefined
  | null
  | bool (b : Bool)
  | number (int64 : Int)
  | bigint (i : Int)
  | string (s : String)
  | object (ref : Nat)
  | func (f : NativeFn)
deriving DecidableEq

/-- Errors a JavaScript caller can observe from a call into the module. -/
inductive JsError
  | napi (status : NapiStatus)
  | notAFunction
deriving DecidableEq

/-- What a JavaScript caller observes from one call: a value or a thrown exception. -/
inductive JsOutcome
  | value (v : JsValue)
  | exception (e : JsError)
deriving DecidableEq

/-! ## Build configuration -/

/-- How node-addon-api reports a failed Node-API call: `NAPI_CPP_EXCEPTIONS` throws a C++
exception, `NAPI_DISABLE_CPP_EXCEPTIONS` records a pending JavaScript exception and lets the
wrapper return a default value. -/
inductive ExceptionMode
  | cppExceptions
  | disabled
deriving DecidableEq

/-- Compile-time facts that are fixed outside the source file. -/
structure BuildConfig where
  exceptions : ExceptionMode
  pointerBits : Nat
deriving DecidableEq

/-! ## Operating system interface -/

/-- One recorded call of the OS primitive. -/
structure OsCall where
  hwnd : Nat
  dwAffinity : Nat
deriving DecidableEq

/-- The operating system as the shim uses it: `SetWindowDisplayAffinity st hwnd dwAffinity`
returns the Win32 `BOOL` (an `int`) and the next OS state. -/
structure WinApi (σ : Type) where
  SetWindowDisplayAffinity : σ → Nat → Nat → Int × σ

/-- What persists between calls from JavaScript: the OS state and the trace of OS calls. -/
structure World (σ : Type) where
  os : σ
  calls : List OsCall

/-- State threaded through one native callback: the world plus the pending JavaScript
exception of the `napi_env`. -/
structure Env (σ : Type) where
  os : σ
  calls : List OsCall
  pending : Option NapiStatus

/-- Result of a C++ expression that may throw `Napi::Error`. -/
inductive Cpp (α : Type)
  | ret (a : α)
  | thrown (s : NapiStatus)

/-! ## Constants -/

/-- `#define WDA_EXCLUDEFROMCAPTURE 0x00000011` -/
def WDA_EXCLUDEFROMCAPTURE : Nat := 0x00000011

/-- Modelled from the spec: the Windows SDK constant `WDA_NONE` (normal display affinity),
which the source takes from `windows.h`; its value there is `0x00000000`. -/
def WDA_NONE : Nat := 0

/-! ## node-addon-api wrappers used by the source -/

/-- `info[i]`: the i-th argument, `undefined` when fewer arguments were passed. -/
def CallbackInfo.get (info : List JsValue) (i : Nat) : JsValue :=
  info.getD i JsValue.undefined

/-- `As<Napi::Number>()`: a cast of the handle wrapper; node-addon-api performs no run-time
type check here (its opt-in check `NODE_ADDON_API_ENABLE_TYPE_CHECK_ON_AS` is not modelled). -/
def As_Number (v : JsValue) : JsValue := v

/-- `napi_get_value_int64`: fails with `napi_number_expected` unless the value is a number. -/
def napi_get_value_int64 : JsValue → Except NapiStatus Int
  | JsValue.number v => Except.ok v
  | _ => Except.error NapiStatus.napi_number_expected

/-- `Napi::Number::Int64Value()`: `napi_get_value_int64` followed by
`NAPI_THROW_IF_FAILED(env, status, 0)`. -/
def Int64Value {σ : Type} (cfg : BuildConfig) (v : JsValue) (e : Env σ) : Cpp Int × Env σ :=
  match napi_get_value_int64 v with
  | Except.ok r => (Cpp.ret r, e)
  | Except.error s =>
    match cfg.exceptions with
    | ExceptionMode.cppExceptions => (Cpp.thrown s, e)
    | ExceptionMode.disabled => (Cpp.ret 0, Env.mk e.os e.calls (some s))

/-- `(uintptr_t)v` for an `int64_t v`: reduction modulo `2 ^ pointerBits`. -/
def toUintptr (bits : Nat) (v : Int) : Nat := (v % (2 : Int) ^ bits).toNat

/-- The window handle the callbacks derive from the value of `Int64Value()`:
`(HWND)(uintptr_t)v`. -/
def toHWND (cfg : BuildConfig) (v : Int) : Nat := toUintptr cfg.pointerBits v

/-- A call of the OS primitive from native code: the OS state advances and the call is
appended to the trace. -/
def SetWindowDisplayAffinity {σ : Type} (api : WinApi σ) (hwnd dwAffinity : Nat) (e : Env σ) :
    Int × Env σ :=
  let r := api.SetWindowDisplayAffinity e.os hwnd dwAffinity
  (r.1, Env.mk r.2 (e.calls ++ [OsCall.mk hwnd dwAffinity]) e.pending)

/-- `Napi::Boolean::New(env, ok)` with `ok` a `BOOL`: the implicit `int`-to-`bool` conversion
maps every non-zero value to `true`. -/
def Boolean_New (ok : Int) : JsValue := JsValue.bool (decide (ok ≠ 0))

/-! ## The two callbacks -/

/-- `Napi::Value ExcludeFromCapture(const Napi::CallbackInfo& info)` -/
def ExcludeFromCapture {σ : Type} (cfg : BuildConfig) (api : WinApi σ) (info : List JsValue)
    (e : Env σ) : Cpp JsValue × Env σ :=
  match Int64Value cfg (As_Number (CallbackInfo.get info 0)) e with
  | (Cpp.thrown s, e1) => (Cpp.thrown s, e1)
  | (Cpp.ret v, e1) =>
    let hwnd := toHWND cfg v
    let r := SetWindowDisplayAffinity api hwnd WDA_EXCLUDEFROMCAPTURE e1
    (Cpp.ret (Boolean_New r.1), r.2)

/-- `Napi::Value IncludeInCapture(const Napi::CallbackInfo& info)` -/
def IncludeInCapture {σ : Type} (cfg : BuildConfig) (api : WinApi σ) (info : List JsValue)
    (e : Env σ) : Cpp JsValue × Env σ :=
  match Int64Value cfg (As_Number (CallbackInfo.get info 0)) e with
  | (Cpp.thrown s, e1) => (Cpp.thrown s, e1)
  | (Cpp.ret v, e1) =>
    let hwnd := toHWND cfg v
    let r := SetWindowDisplayAffinity api hwnd WDA_NONE e1
    (Cpp.ret (Boolean_New r.1), r.2)

/-- The C++ function behind a `Napi::Function`. -/
def NativeFn.run {σ : Type} (f : NativeFn) (cfg : BuildConfig) (api : WinApi σ)
    (info : List JsValue) (e : Env σ) : Cpp JsValue × Env σ :=
  match f with
  | NativeFn.ExcludeFromCapture => DisplayAffinity.ExcludeFromCapture cfg api info e
  | NativeFn.IncludeInCapture => DisplayAffinity.IncludeInCapture cfg api info e

/-- A call from JavaScript into a native function: the callback starts with no pending
exception; a C++ `Napi::Error` escaping it, or an exception left pending, is thrown to the
JavaScript caller, otherwise the caller receives the returned value. -/
def invoke {σ : Type} (cfg : BuildConfig) (api : WinApi σ) (f : NativeFn)
    (args : List JsValue) (w : World σ) : JsOutcome × World σ :=
  let r := f.run cfg api args (Env.mk w.os w.calls none)
  let w1 := World.mk r.2.os r.2.calls
  match r.1, r.2.pending with
  | Cpp.thrown s, _ => (JsOutcome.exception (JsError.napi s), w1)
  | Cpp.ret _, some s => (JsOutcome.exception (JsError.napi s), w1)
  | Cpp.ret v, none => (JsOutcome.value v, w1)

/-! ## Module initialisation -/

/-- A JavaScript object: its own properties in insertion order. -/
abbrev Object := List (String × JsValue)

/-- Property names of an object. -/
def Object.keys (o : Object) : List String := o.map Prod.fst

/-- `obj[key]`, `undefined` when absent. -/
def Object.Get : Object → String → JsValue
  | [], _ => JsValue.undefined
  | (k, v) :: rest, key => if k = key then v else Object.Get rest key

/-- `obj[key] = value`: overwrite in place, or add the property at the end. -/
def Object.Set : Object → String → JsValue → Object
  | [], key, value => [(key, value)]
  | (k, v) :: rest, key, value =>
    if k = key then (key, value) :: rest else (k, v) :: Object.Set rest key value

/-- The JavaScript heap: objects by reference. -/
abbrev Heap := Nat → Object

/-- `Napi::Object::Set(key, value)` on the object a handle refers to. -/
def Heap.Set (h : Heap) (ref : Nat) (key : String) (value : JsValue) : Heap :=
  fun r => if r = ref then Object.Set (h r) key value else h r

/-- `Napi::Object Init(Napi::Env env, Napi::Object exports)`: returns the handle it hands
back and the heap after the two `Set` calls. -/
def Init (exports : Nat) (h : Heap) : Nat × Heap :=
  let h1 := Heap.Set h exports "exclude" (JsValue.func NativeFn.ExcludeFromCapture)
  let h2 := Heap.Set h1 exports "include" (JsValue.func NativeFn.IncludeInCapture)
  (exports, h2)

/-- `NODE_API_MODULE(display_affinity, Init)`: the runtime creates a fresh empty exports
object, runs `Init` on it and publishes the object `Init` returns. -/
def loadModule : Object :=
  let r := Init 0 (fun _ => [])
  r.2 r.1

/-- Calling `obj.name(args...)` from JavaScript. -/
def callProperty {σ : Type} (cfg : BuildConfig) (api : WinApi σ) (o : Object) (name : String)
    (args : List JsValue) (w : World σ) : JsOutcome × World σ :=
  match Object.Get o name with
  | JsValue.func f => invoke cfg api f args w
  | _ => (JsOutcome.exception JsError.notAFunction, w)

/-- The JavaScript call `require(module).exclude(args...)`. -/
def callExclude {σ : Type} (cfg : BuildConfig) (api : WinApi σ) (args : List JsValue)
    (w : World σ) : JsOutcome × World σ :=
  callProperty cfg api loadModule "exclude" args w

/-- The JavaScript call `require(module).include(args...)`. -/
def callInclude {σ : Type} (cfg : BuildConfig) (api : WinApi σ) (args : List JsValue)
    (w : World σ) : JsOutcome × World σ :=
  callProperty cfg api loadModule "include" args w

/-! ## A concrete operating system: a table of windows -/

/-- Modelled from the spec: the OS side of `SetWindowDisplayAffinity`, which is not part of
the source.  The OS is a map from handle to display affinity; `none` means the handle names
no window. -/
structure Desktop where
  affinity : Nat → Option Nat

/-- Modelled from the spec: the OS query primitive (`GetWindowDisplayAffinity`): the affinity
of the window a handle names; the null handle names no window. -/
def Desktop.GetWindowDisplayAffinity (d : Desktop) (hwnd : Nat) : Option Nat :=
  if hwnd = 0 then none else d.affinity hwnd

/-- Modelled from the spec: the OS rejects (returns `FALSE`, state unchanged) every handle that
does not name a window, and otherwise overwrites that window's affinity and returns `TRUE`. -/
def Desktop.SetWindowDisplayAffinity (d : Desktop) (hwnd dwAffinity : Nat) : Int × Desktop :=
  match d.GetWindowDisplayAffinity hwnd with
  | none => (0, d)
  | some _ => (1, Desktop.mk (fun h => if h = hwnd then some dwAffinity else d.affinity h))

/-- Modelled from the spec: the window-table OS packaged as a `WinApi`. -/
def desktopApi : WinApi Desktop := WinApi.mk Desktop.SetWindowDisplayAffinity

/-- An OS that refuses every request (for instance a system without the primitive's
exclude-from-capture support). -/
def refusingApi : WinApi Unit := WinApi.mk (fun _ _ _ => (0, ()))

/-- An OS that grants every request and answers with an arbitrary non-zero `BOOL`. -/
def grantingApi : WinApi Unit := WinApi.mk (fun _ _ _ => (5, ()))

/-- A desktop whose only window has handle `66` and normal affinity. -/
def oneWindow : Desktop := Desktop.mk (fun h => if h = 66 then some 0 else none)

/-- A 64-bit build with C++ exceptions enabled. -/
def cfg64 : BuildConfig := BuildConfig.mk ExceptionMode.cppExceptions 64

/-- A 64-bit build with C++ exceptions disabled. -/
def cfg64NoExc : BuildConfig := BuildConfig.mk ExceptionMode.disabled 64

/-! ## Basic lemmas -/

theorem loadModule_eq :
    loadModule = [("exclude", JsValue.func NativeFn.ExcludeFromCapture),
                  ("include", JsValue.func NativeFn.IncludeInCapture)] := by
  decide

theorem loadModule_get_exclude :
    Object.Get loadModule "exclude" = JsValue.func NativeFn.ExcludeFromCapture := by
  decide

theorem loadModule_get_include :
    Object.Get loadModule "include" = JsValue.func NativeFn.IncludeInCapture := by
  decide

/-- Effect of `exclude` on a numeric first argument, in closed form. -/
theorem callExclude_number {σ : Type} (cfg : BuildConfig) (api : WinApi σ) (v : Int)
    (rest : List JsValue) (w : World σ) :
    callExclude cfg api (JsValue.number v :: rest) w =
      (JsOutcome.value (Boolean_New
          (api.SetWindowDisplayAffinity w.os (toHWND cfg v) WDA_EXCLUDEFROMCAPTURE).1),
       World.mk (api.SetWindowDisplayAffinity w.os (toHWND cfg v) WDA_EXCLUDEFROMCAPTURE).2
          (w.calls ++ [OsCall.mk (toHWND cfg v) WDA_EXCLUDEFROMCAPTURE])) := by
  unfold callExclude callProperty
  rw [loadModule_get_exclude]
  rfl

/-- Effect of `include` on a numeric first argument, in closed form. -/
theorem callInclude_number {σ : Type} (cfg : BuildConfig) (api : WinApi σ) (v : Int)
    (rest : List JsValue) (w : World σ) :
    callInclude cfg api (JsValue.number v :: rest) w =
      (JsOutcome.value (Boolean_New
          (api.SetWindowDisplayAffinity w.os (toHWND cfg v) WDA_NONE).1),
       World.mk (api.SetWindowDisplayAffinity w.os (toHWND cfg v) WDA_NONE).2
          (w.calls ++ [OsCall.mk (toHWND cfg v) WDA_NONE])) := by
  unfold callInclude callProperty
  rw [loadModule_get_include]
  rfl

theorem Boolean_New_eq_true (ok : Int) :
    Boolean_New ok = JsValue.bool true ↔ ok ≠ 0 := by
  simp [Boolean_New]

theorem Boolean_New_eq_false (ok : Int) :
    Boolean_New ok = JsValue.bool false ↔ ok = 0 := by
  simp [Boolean_New]

theorem toUintptr_zero (bits : Nat) : toUintptr bits 0 = 0 := by
  simp [toUintptr]

theorem toHWND_zero (cfg : BuildConfig) : toHWND cfg 0 = 0 := toUintptr_zero _

/-- A first argument that is not a number makes `napi_get_value_int64` fail. -/
theorem napi_get_value_int64_of_not_number (x : JsValue)
    (h : ∀ v : Int, x ≠ JsValue.number v) :
    napi_get_value_int64 x = Except.error NapiStatus.napi_number_expected := by
  cases x <;> first | rfl | exact absurd rfl (h _)

/-- An argument vector whose first entry reads as a number starts with that number. -/
theorem CallbackInfo.get_zero_eq_number (args : List JsValue) (v : Int)
    (h : CallbackInfo.get args 0 = JsValue.number v) :
    ∃ rest : List JsValue, args = JsValue.number v :: rest := by
  cases args with
  | nil => simp [CallbackInfo.get] at h
  | cons x rest =>
    refine ⟨rest, ?_⟩
    simp only [CallbackInfo.get, List.getD_cons_zero] at h
    rw [h]

/-! ## Non-numeric first argument -/

/-- Closed form of `exclude` on a non-numeric first argument, C++ exceptions enabled. -/
theorem callExclude_not_number_cpp {σ : Type} (cfg : BuildConfig) (api : WinApi σ)
    (args : List JsValue) (w : World σ)
    (h : ∀ v : Int, CallbackInfo.get args 0 ≠ JsValue.number v)
    (hc : cfg.exceptions = ExceptionMode.cppExceptions) :
    callExclude cfg api args w =
      (JsOutcome.exception (JsError.napi NapiStatus.napi_number_expected), w) := by
  unfold callExclude callProperty
  rw [loadModule_get_exclude]
  simp only [invoke, NativeFn.run, ExcludeFromCapture, Int64Value, As_Number,
    napi_get_value_int64_of_not_number _ h, hc]

/-- Closed form of `include` on a non-numeric first argument, C++ exceptions enabled. -/
theorem callInclude_not_number_cpp {σ : Type} (cfg : BuildConfig) (api : WinApi σ)
    (args : List JsValue) (w : World σ)
    (h : ∀ v : Int, CallbackInfo.get args 0 ≠ JsValue.number v)
    (hc : cfg.exceptions = ExceptionMode.cppExceptions) :
    callInclude cfg api args w =
      (JsOutcome.exception (JsError.napi NapiStatus.napi_number_expected), w) := by
  unfold callInclude callProperty
  rw [loadModule_get_include]
  simp only [invoke, NativeFn.run, IncludeInCapture, Int64Value, As_Number,
    napi_get_value_int64_of_not_number _ h, hc]

/-- Closed form of `exclude` on a non-numeric first argument, C++ exceptions disabled. -/
theorem callExclude_not_number_disabled {σ : Type} (cfg : BuildConfig) (api : WinApi σ)
    (args : List JsValue) (w : World σ)
    (h : ∀ v : Int, CallbackInfo.get args 0 ≠ JsValue.number v)
    (hc : cfg.exceptions = ExceptionMode.disabled) :
    callExclude cfg api args w =
      (JsOutcome.exception (JsError.napi NapiStatus.napi_number_expected),
       World.mk (api.SetWindowDisplayAffinity w.os 0 WDA_EXCLUDEFROMCAPTURE).2
          (w.calls ++ [OsCall.mk 0 WDA_EXCLUDEFROMCAPTURE])) := by
  unfold callExclude callProperty
  rw [loadModule_get_exclude]
  simp only [invoke, NativeFn.run, ExcludeFromCapture, Int64Value, As_Number,
    napi_get_value_int64_of_not_number _ h, hc, SetWindowDisplayAffinity, toHWND_zero]

/-- Closed form of `include` on a non-numeric first argument, C++ exceptions disabled. -/
theorem callInclude_not_number_disabled {σ : Type} (cfg : BuildConfig) (api : WinApi σ)
    (args : List JsValue) (w : World σ)
    (h : ∀ v : Int, CallbackInfo.get args 0 ≠ JsValue.number v)
    (hc : cfg.exceptions = ExceptionMode.disabled) :
    callInclude cfg api args w =
      (JsOutcome.exception (JsError.napi NapiStatus.napi_number_expected),
       World.mk (api.SetWindowDisplayAffinity w.os 0 WDA_NONE).2
          (w.calls ++ [OsCall.mk 0 WDA_NONE])) := by
  unfold callInclude callProperty
  rw [loadModule_get_include]
  simp only [invoke, NativeFn.run, IncludeInCapture, Int64Value, As_Number,
    napi_get_value_int64_of_not_number _ h, hc, SetWindowDisplayAffinity, toHWND_zero]

/-! ## Pointer-width conversion -/

theorem toUintptr_cast (bits : Nat) (v : Int) :
    ((toUintptr bits v : Nat) : Int) = v % (2 : Int) ^ bits := by
  unfold toUintptr
  exact Int.toNat_of_nonneg (Int.emod_nonneg _ (by positivity))

theorem toUintptr_lt (bits : Nat) (v : Int) : toUintptr bits v < 2 ^ bits := by
  have h1 : ((toUintptr bits v : Nat) : Int) < (2 : Int) ^ bits := by
    rw [toUintptr_cast]
    exact Int.emod_lt_of_pos _ (by positivity)
  exact_mod_cast h1

theorem emod_two_pow_64_of_nonneg (v : Int) (h0 : 0 ≤ v) (h1 : v < 2 ^ 63) :
    v % (2 : Int) ^ 64 = v := by
  norm_num at h1 ⊢
  omega

theorem emod_two_pow_64_of_neg (v : Int) (h0 : -(2 : Int) ^ 63 ≤ v) (h1 : v < 0) :
    v % (2 : Int) ^ 64 = v + 2 ^ 64 := by
  norm_num at h0 ⊢
  omega

/-! ## The window-table OS -/

theorem Desktop.ne_zero_of_window (d : Desktop) (H a : Nat)
    (h : d.GetWindowDisplayAffinity H = some a) : H ≠ 0 := by
  intro h0
  simp [Desktop.GetWindowDisplayAffinity, h0] at h

theorem Desktop.affinity_of_window (d : Desktop) (H a : Nat)
    (h : d.GetWindowDisplayAffinity H = some a) : d.affinity H = some a := by
  have h0 := Desktop.ne_zero_of_window d H a h
  simpa [Desktop.GetWindowDisplayAffinity, h0] using h

theorem desktopApi_set_of_window (d : Desktop) (H dw a : Nat)
    (h : d.GetWindowDisplayAffinity H = some a) :
    desktopApi.SetWindowDisplayAffinity d H dw =
      (1, Desktop.mk (fun x => if x = H then some dw else d.affinity x)) := by
  simp [desktopApi, Desktop.SetWindowDisplayAffinity, h]

theorem desktopApi_set_of_no_window (d : Desktop) (H dw : Nat)
    (h : d.GetWindowDisplayAffinity H = none) :
    desktopApi.SetWindowDisplayAffinity d H dw = (0, d) := by
  simp [desktopApi, Desktop.SetWindowDisplayAffinity, h]

theorem Desktop.get_after_set (f : Nat → Option Nat) (H dw : Nat) (h0 : H ≠ 0) :
    (Desktop.mk (fun x => if x = H then some dw else f x)).GetWindowDisplayAffinity H
      = some dw := by
  simp [Desktop.GetWindowDisplayAffinity, h0]

theorem Desktop.set_set (f : Nat → Option Nat) (H dw1 dw2 : Nat) :
    Desktop.mk (fun x => if x = H then some dw2
        else (Desktop.mk (fun y => if y = H then some dw1 else f y)).affinity x)
      = Desktop.mk (fun x => if x = H then some dw2 else f x) := by
  congr 1
  funext x
  by_cases hx : x = H <;> simp [hx]

theorem Desktop.set_same (d : Desktop) (H dw : Nat) (h : d.affinity H = some dw) :
    Desktop.mk (fun x => if x = H then some dw else d.affinity x) = d := by
  cases d with
  | mk f =>
    congr 1
    funext x
    by_cases hx : x = H
    · subst hx; simpa using h.symm
    · simp [hx]

theorem Desktop.null_is_no_window (d : Desktop) : d.GetWindowDisplayAffinity 0 = none := by
  simp [Desktop.GetWindowDisplayAffinity]

/-! ## Objects -/

theorem Object.Get_Set_same (o : Object) (k : String) (v : JsValue) :
    Object.Get (Object.Set o k v) k = v := by
  induction o with
  | nil => simp [Object.Set, Object.Get]
  | cons p rest ih =>
    obtain ⟨k1, v1⟩ := p
    by_cases hk : k1 = k
    · simp [Object.Set, Object.Get, hk]
    · simp [Object.Set, Object.Get, hk, ih]

theorem Object.Get_Set_other (o : Object) (k k2 : String) (v : JsValue) (hne : k2 ≠ k) :
    Object.Get (Object.Set o k v) k2 = Object.Get o k2 := by
  induction o with
  | nil => simp [Object.Set, Object.Get, Ne.symm hne]
  | cons p rest ih =>
    obtain ⟨k1, v1⟩ := p
    by_cases hk : k1 = k
    · subst hk
      simp [Object.Set, Object.Get, Ne.symm hne]
    · simp [Object.Set, Object.Get, hk, ih]

theorem Object.mem_keys_Set (o : Object) (k k2 : String) (v : JsValue) :
    k2 ∈ Object.keys (Object.Set o k v) ↔ k2 ∈ Object.keys o ∨ k2 = k := by
  induction o with
  | nil => simp [Object.Set, Object.keys]
  | cons p rest ih =>
    obtain ⟨k1, v1⟩ := p
    by_cases hk : k1 = k
    · subst hk
      simp [Object.Set, Object.keys]
      tauto
    · simp only [Object.keys] at ih
      simp [Object.Set, Object.keys, hk, ih]
      tauto

/-! ## Properties of the binding -/

/-- C1: for every numeric first argument and every behaviour of the operating system,
`exclude` issues `SetWindowDisplayAffinity` on the handle derived from the argument with the
flag `WDA_EXCLUDEFROMCAPTURE = 0x11`, the OS state becomes the one that call produces, and the
JavaScript result is the boolean `true` exactly when the returned `BOOL` is non-zero and
`false` exactly when it is zero. -/
theorem exclude_forwards_os_result {σ : Type} (cfg : BuildConfig) (api : WinApi σ) (v : Int)
    (rest : List JsValue) (w : World σ) :
    WDA_EXCLUDEFROMCAPTURE = 0x11 ∧
    (callExclude cfg api (JsValue.number v :: rest) w).2.calls
      = w.calls ++ [OsCall.mk (toHWND cfg v) 0x11] ∧
    (callExclude cfg api (JsValue.number v :: rest) w).2.os
      = (api.SetWindowDisplayAffinity w.os (toHWND cfg v) 0x11).2 ∧
    (callExclude cfg api (JsValue.number v :: rest) w).1
      = JsOutcome.value (JsValue.bool
          (decide ((api.SetWindowDisplayAffinity w.os (toHWND cfg v) 0x11).1 ≠ 0))) ∧
    ((callExclude cfg api (JsValue.number v :: rest) w).1 = JsOutcome.value (JsValue.bool true)
      ↔ (api.SetWindowDisplayAffinity w.os (toHWND cfg v) 0x11).1 ≠ 0) ∧
    ((callExclude cfg api (JsValue.number v :: rest) w).1 = JsOutcome.value (JsValue.bool false)
      ↔ (api.SetWindowDisplayAffinity w.os (toHWND cfg v) 0x11).1 = 0) := by
  rw [callExclude_number]
  refine ⟨rfl, rfl, rfl, rfl, ?_, ?_⟩
  · simp [Boolean_New, WDA_EXCLUDEFROMCAPTURE]
  · simp [Boolean_New, WDA_EXCLUDEFROMCAPTURE]

/-- C2: for every numeric first argument and every behaviour of the operating system,
`include` issues `SetWindowDisplayAffinity` on the handle derived from the argument with the
flag `WDA_NONE = 0`, and the JavaScript result is `true` exactly when the returned `BOOL` is
non-zero (and `false` exactly when it is zero). -/
theorem include_forwards_os_result {σ : Type} (cfg : BuildConfig) (api : WinApi σ) (v : Int)
    (rest : List JsValue) (w : World σ) :
    WDA_NONE = 0 ∧
    (callInclude cfg api (JsValue.number v :: rest) w).2.calls
      = w.calls ++ [OsCall.mk (toHWND cfg v) 0] ∧
    (callInclude cfg api (JsValue.number v :: rest) w).2.os
      = (api.SetWindowDisplayAffinity w.os (toHWND cfg v) 0).2 ∧
    (callInclude cfg api (JsValue.number v :: rest) w).1
      = JsOutcome.value (JsValue.bool
          (decide ((api.SetWindowDisplayAffinity w.os (toHWND cfg v) 0).1 ≠ 0))) ∧
    ((callInclude cfg api (JsValue.number v :: rest) w).1 = JsOutcome.value (JsValue.bool true)
      ↔ (api.SetWindowDisplayAffinity w.os (toHWND cfg v) 0).1 ≠ 0) ∧
    ((callInclude cfg api (JsValue.number v :: rest) w).1 = JsOutcome.value (JsValue.bool false)
      ↔ (api.SetWindowDisplayAffinity w.os (toHWND cfg v) 0).1 = 0) := by
  rw [callInclude_number]
  refine ⟨rfl, rfl, rfl, rfl, ?_, ?_⟩
  · simp [Boolean_New, WDA_NONE]
  · simp [Boolean_New, WDA_NONE]

/-- C3, as stated, fails: in a build with C++ exceptions disabled, `exclude()` and
`include()` called without an argument do throw to the caller, but each has first called
`SetWindowDisplayAffinity` once, on the null handle. -/
theorem non_numeric_argument_reaches_os_when_exceptions_disabled :
    (callExclude cfg64NoExc refusingApi [] (World.mk () [])).1
      = JsOutcome.exception (JsError.napi NapiStatus.napi_number_expected) ∧
    (callExclude cfg64NoExc refusingApi [] (World.mk () [])).2.calls = [OsCall.mk 0 0x11] ∧
    (callInclude cfg64NoExc refusingApi [JsValue.string "abc"] (World.mk () [])).1
      = JsOutcome.exception (JsError.napi NapiStatus.napi_number_expected) ∧
    (callInclude cfg64NoExc refusingApi [JsValue.string "abc"] (World.mk () [])).2.calls
      = [OsCall.mk 0 0] := by
  decide

/-- C3, amended: when the first argument is not a number (or is missing), `exclude` and
`include` both signal the failure `napi_number_expected` to the caller in every build; in a
build with C++ exceptions enabled no OS call is made and the OS state is untouched; in a
build with C++ exceptions disabled the failure is left pending, `Int64Value` yields `0`, and
exactly one OS call is made, on the null handle. -/
theorem non_numeric_argument_is_rejected {σ : Type} (cfg : BuildConfig) (api : WinApi σ)
    (args : List JsValue) (w : World σ)
    (h : ∀ v : Int, CallbackInfo.get args 0 ≠ JsValue.number v) :
    (callExclude cfg api args w).1
      = JsOutcome.exception (JsError.napi NapiStatus.napi_number_expected) ∧
    (callInclude cfg api args w).1
      = JsOutcome.exception (JsError.napi NapiStatus.napi_number_expected) ∧
    (cfg.exceptions = ExceptionMode.cppExceptions →
      (callExclude cfg api args w).2.calls = w.calls ∧
      (callExclude cfg api args w).2.os = w.os ∧
      (callInclude cfg api args w).2.calls = w.calls ∧
      (callInclude cfg api args w).2.os = w.os) ∧
    (cfg.exceptions = ExceptionMode.disabled →
      (callExclude cfg api args w).2.calls = w.calls ++ [OsCall.mk 0 WDA_EXCLUDEFROMCAPTURE] ∧
      (callInclude cfg api args w).2.calls = w.calls ++ [OsCall.mk 0 WDA_NONE]) := by
  cases hc : cfg.exceptions with
  | cppExceptions =>
    rw [callExclude_not_number_cpp cfg api args w h hc,
      callInclude_not_number_cpp cfg api args w h hc]
    simp
  | disabled =>
    rw [callExclude_not_number_disabled cfg api args w h hc,
      callInclude_not_number_disabled cfg api args w h hc]
    simp

/-- Witness for C3 (amended): `exclude()` and `include()` with no argument at all, in a
64-bit build with C++ exceptions enabled. -/
theorem non_numeric_argument_is_rejected_witness :
    (∀ v : Int, CallbackInfo.get [] 0 ≠ JsValue.number v) ∧
    (callExclude cfg64 grantingApi [] (World.mk () [])).1
      = JsOutcome.exception (JsError.napi NapiStatus.napi_number_expected) ∧
    (callInclude cfg64 grantingApi [] (World.mk () [])).1
      = JsOutcome.exception (JsError.napi NapiStatus.napi_number_expected) ∧
    (callExclude cfg64 grantingApi [] (World.mk () [])).2.calls = [] ∧
    (callInclude cfg64 grantingApi [] (World.mk () [])).2.calls = [] :=
  have hn : ∀ v : Int, CallbackInfo.get [] 0 ≠ JsValue.number v := fun _ => by
    simp [CallbackInfo.get]
  have t := non_numeric_argument_is_rejected cfg64 grantingApi [] (World.mk () []) hn
  ⟨hn, t.1, t.2.1, (t.2.2.1 rfl).1, (t.2.2.1 rfl).2.2.1⟩

/-- C4: over the window-table OS, for every handle that names a window and every prior
affinity `a` of that window: `exclude` returns `true` and the OS query then reports the
exclude-from-capture flag; the following `include` returns `true` and the query reports
`WDA_NONE` (capturable); the OS state after `exclude` then `include` equals the OS state after
`include` alone, and equals the original OS state when the window was capturable before. -/
theorem exclude_then_include_round_trip (cfg : BuildConfig) (v : Int)
    (rest1 rest2 : List JsValue) (w : World Desktop) (a : Nat)
    (hwin : w.os.GetWindowDisplayAffinity (toHWND cfg v) = some a) :
    (callExclude cfg desktopApi (JsValue.number v :: rest1) w).1
      = JsOutcome.value (JsValue.bool true) ∧
    (callExclude cfg desktopApi (JsValue.number v :: rest1) w).2.os.GetWindowDisplayAffinity
        (toHWND cfg v) = some WDA_EXCLUDEFROMCAPTURE ∧
    (callInclude cfg desktopApi (JsValue.number v :: rest2)
        (callExclude cfg desktopApi (JsValue.number v :: rest1) w).2).1
      = JsOutcome.value (JsValue.bool true) ∧
    (callInclude cfg desktopApi (JsValue.number v :: rest2)
        (callExclude cfg desktopApi (JsValue.number v :: rest1) w).2).2.os.GetWindowDisplayAffinity
        (toHWND cfg v) = some WDA_NONE ∧
    (callInclude cfg desktopApi (JsValue.number v :: rest2)
        (callExclude cfg desktopApi (JsValue.number v :: rest1) w).2).2.os
      = (callInclude cfg desktopApi (JsValue.number v :: rest2) w).2.os ∧
    (a = WDA_NONE →
      (callInclude cfg desktopApi (JsValue.number v :: rest2)
        (callExclude cfg desktopApi (JsValue.number v :: rest1) w).2).2.os = w.os) := by
  have h0 := Desktop.ne_zero_of_window _ _ _ hwin
  have hex := Desktop.get_after_set w.os.affinity (toHWND cfg v) WDA_EXCLUDEFROMCAPTURE h0
  simp only [callExclude_number, callInclude_number,
    desktopApi_set_of_window _ _ _ _ hwin, desktopApi_set_of_window _ _ _ _ hex,
    Desktop.set_set]
  refine ⟨by simp [Boolean_New], hex, by simp [Boolean_New],
    Desktop.get_after_set _ _ _ h0, trivial, ?_⟩
  intro ha
  subst ha
  exact Desktop.set_same _ _ _ (Desktop.affinity_of_window _ _ _ hwin)

/-- Witness for C4: the desktop whose only window is `66`, handle argument `66`. -/
theorem exclude_then_include_round_trip_witness :
    oneWindow.GetWindowDisplayAffinity (toHWND cfg64 66) = some 0 ∧
    (callInclude cfg64 desktopApi [JsValue.number 66]
        (callExclude cfg64 desktopApi [JsValue.number 66]
          (World.mk oneWindow [])).2).2.os.GetWindowDisplayAffinity (toHWND cfg64 66)
      = some WDA_NONE :=
  have hw : oneWindow.GetWindowDisplayAffinity (toHWND cfg64 66) = some 0 := by decide
  ⟨hw, (exclude_then_include_round_trip cfg64 66 [] [] (World.mk oneWindow []) 0 hw).2.2.2.1⟩

/-- C5: over the window-table OS, for every handle that names a window, two successive
`exclude` calls both return `true`, and the OS state after the second call equals the OS
state after the first. -/
theorem exclude_is_idempotent (cfg : BuildConfig) (v : Int)
    (rest1 rest2 : List JsValue) (w : World Desktop) (a : Nat)
    (hwin : w.os.GetWindowDisplayAffinity (toHWND cfg v) = some a) :
    (callExclude cfg desktopApi (JsValue.number v :: rest1) w).1
      = JsOutcome.value (JsValue.bool true) ∧
    (callExclude cfg desktopApi (JsValue.number v :: rest2)
        (callExclude cfg desktopApi (JsValue.number v :: rest1) w).2).1
      = (callExclude cfg desktopApi (JsValue.number v :: rest1) w).1 ∧
    (callExclude cfg desktopApi (JsValue.number v :: rest2)
        (callExclude cfg desktopApi (JsValue.number v :: rest1) w).2).2.os
      = (callExclude cfg desktopApi (JsValue.number v :: rest1) w).2.os := by
  have h0 := Desktop.ne_zero_of_window _ _ _ hwin
  have hex := Desktop.get_after_set w.os.affinity (toHWND cfg v) WDA_EXCLUDEFROMCAPTURE h0
  simp only [callExclude_number,
    desktopApi_set_of_window _ _ _ _ hwin, desktopApi_set_of_window _ _ _ _ hex,
    Desktop.set_set]
  exact ⟨by simp [Boolean_New], trivial, trivial⟩

/-- Witness for C5: the desktop whose only window is `66`, handle argument `66`. -/
theorem exclude_is_idempotent_witness :
    oneWindow.GetWindowDisplayAffinity (toHWND cfg64 66) = some 0 ∧
    (callExclude cfg64 desktopApi [JsValue.number 66]
        (callExclude cfg64 desktopApi [JsValue.number 66] (World.mk oneWindow [])).2).1
      = (callExclude cfg64 desktopApi [JsValue.number 66] (World.mk oneWindow [])).1 :=
  have hw : oneWindow.GetWindowDisplayAffinity (toHWND cfg64 66) = some 0 := by decide
  ⟨hw, (exclude_is_idempotent cfg64 66 [] [] (World.mk oneWindow []) 0 hw).2.1⟩

/-- C6: over the window-table OS, on every build and every desktop: whenever the handle
derived from a numeric argument names no window, `exclude` and `include` both return `false`
and leave the OS state unchanged; in particular `exclude(0)` and `include(0)` return
`false`, the null handle naming no window. -/
theorem no_window_returns_false (cfg : BuildConfig) (rest : List JsValue)
    (w : World Desktop) :
    (∀ v : Int, w.os.GetWindowDisplayAffinity (toHWND cfg v) = none →
      (callExclude cfg desktopApi (JsValue.number v :: rest) w).1
        = JsOutcome.value (JsValue.bool false) ∧
      (callInclude cfg desktopApi (JsValue.number v :: rest) w).1
        = JsOutcome.value (JsValue.bool false) ∧
      (callExclude cfg desktopApi (JsValue.number v :: rest) w).2.os = w.os ∧
      (callInclude cfg desktopApi (JsValue.number v :: rest) w).2.os = w.os) ∧
    w.os.GetWindowDisplayAffinity (toHWND cfg 0) = none ∧
    (callExclude cfg desktopApi (JsValue.number 0 :: rest) w).1
      = JsOutcome.value (JsValue.bool false) ∧
    (callInclude cfg desktopApi (JsValue.number 0 :: rest) w).1
      = JsOutcome.value (JsValue.bool false) := by
  have key : ∀ v : Int, w.os.GetWindowDisplayAffinity (toHWND cfg v) = none →
      (callExclude cfg desktopApi (JsValue.number v :: rest) w).1
        = JsOutcome.value (JsValue.bool false) ∧
      (callInclude cfg desktopApi (JsValue.number v :: rest) w).1
        = JsOutcome.value (JsValue.bool false) ∧
      (callExclude cfg desktopApi (JsValue.number v :: rest) w).2.os = w.os ∧
      (callInclude cfg desktopApi (JsValue.number v :: rest) w).2.os = w.os := by
    intro v hnone
    simp only [callExclude_number, callInclude_number,
      desktopApi_set_of_no_window _ _ _ hnone]
    simp [Boolean_New]
  have hz : w.os.GetWindowDisplayAffinity (toHWND cfg 0) = none := by
    rw [toHWND_zero]; exact Desktop.null_is_no_window _
  exact ⟨key, hz, (key 0 hz).1, (key 0 hz).2.1⟩

/-- Concrete instance of C6: on the desktop whose only window is `66`, the closed handle `7`
and the null handle `0` are both refused. -/
theorem no_window_returns_false_witness :
    (callExclude cfg64 desktopApi [JsValue.number 7] (World.mk oneWindow [])).1
      = JsOutcome.value (JsValue.bool false) ∧
    (callInclude cfg64 desktopApi [JsValue.number 0] (World.mk oneWindow [])).1
      = JsOutcome.value (JsValue.bool false) :=
  have t := no_window_returns_false cfg64 [] (World.mk oneWindow [])
  ⟨(t.1 7 (by decide)).1, t.2.2.2⟩

/-- C7, as stated, fails: in a build with C++ exceptions disabled, `exclude(null)` and
`include()` each make the OS call on the null handle, the OS reports failure (`BOOL` zero),
and the caller receives an exception, not the boolean `false`. -/
theorem os_failure_after_non_numeric_argument_throws :
    (desktopApi.SetWindowDisplayAffinity oneWindow 0 WDA_EXCLUDEFROMCAPTURE).1 = 0 ∧
    (callExclude cfg64NoExc desktopApi [JsValue.null] (World.mk oneWindow [])).2.calls
      = [OsCall.mk 0 WDA_EXCLUDEFROMCAPTURE] ∧
    (callExclude cfg64NoExc desktopApi [JsValue.null] (World.mk oneWindow [])).1
      = JsOutcome.exception (JsError.napi NapiStatus.napi_number_expected) ∧
    (callExclude cfg64NoExc desktopApi [JsValue.null] (World.mk oneWindow [])).1
      ≠ JsOutcome.value (JsValue.bool false) ∧
    (desktopApi.SetWindowDisplayAffinity oneWindow 0 WDA_NONE).1 = 0 ∧
    (callInclude cfg64NoExc desktopApi [] (World.mk oneWindow [])).2.calls
      = [OsCall.mk 0 WDA_NONE] ∧
    (callInclude cfg64NoExc desktopApi [] (World.mk oneWindow [])).1
      = JsOutcome.exception (JsError.napi NapiStatus.napi_number_expected) ∧
    (callInclude cfg64NoExc desktopApi [] (World.mk oneWindow [])).1
      ≠ JsOutcome.value (JsValue.bool false) := by
  decide

/-- C7, amended: for every build, every behaviour of the operating system and every argument
list.  When the first argument is a number, `exclude` and `include` never throw, and they
return the boolean `false` exactly when the OS call returns the `BOOL` zero, so a failure
reported by the OS, whatever its cause, surfaces as the value `false` and as nothing else.
When the first argument is not a number (or is missing), the caller receives the exception
`napi_number_expected` whatever the OS reports, also in the build with C++ exceptions
disabled, where the OS call on the null handle is still made. -/
theorem os_failure_is_false_for_numeric_argument {σ : Type} (cfg : BuildConfig)
    (api : WinApi σ) (args : List JsValue) (w : World σ) :
    (∀ v : Int, CallbackInfo.get args 0 = JsValue.number v →
      (∀ e : JsError,
        (callExclude cfg api args w).1 ≠ JsOutcome.exception e ∧
        (callInclude cfg api args w).1 ≠ JsOutcome.exception e) ∧
      ((api.SetWindowDisplayAffinity w.os (toHWND cfg v) WDA_EXCLUDEFROMCAPTURE).1 = 0 ↔
        (callExclude cfg api args w).1 = JsOutcome.value (JsValue.bool false)) ∧
      ((api.SetWindowDisplayAffinity w.os (toHWND cfg v) WDA_NONE).1 = 0 ↔
        (callInclude cfg api args w).1 = JsOutcome.value (JsValue.bool false)) ∧
      (callExclude cfg api args w).2.calls
        = w.calls ++ [OsCall.mk (toHWND cfg v) WDA_EXCLUDEFROMCAPTURE] ∧
      (callInclude cfg api args w).2.calls
        = w.calls ++ [OsCall.mk (toHWND cfg v) WDA_NONE]) ∧
    ((∀ v : Int, CallbackInfo.get args 0 ≠ JsValue.number v) →
      (callExclude cfg api args w).1
        = JsOutcome.exception (JsError.napi NapiStatus.napi_number_expected) ∧
      (callInclude cfg api args w).1
        = JsOutcome.exception (JsError.napi NapiStatus.napi_number_expected) ∧
      (cfg.exceptions = ExceptionMode.disabled →
        (callExclude cfg api args w).2.calls
          = w.calls ++ [OsCall.mk 0 WDA_EXCLUDEFROMCAPTURE] ∧
        (callInclude cfg api args w).2.calls = w.calls ++ [OsCall.mk 0 WDA_NONE])) := by
  constructor
  · intro v hv
    obtain ⟨rest, rfl⟩ := CallbackInfo.get_zero_eq_number args v hv
    rw [callExclude_number, callInclude_number]
    refine ⟨fun e => ⟨by simp, by simp⟩, ?_, ?_, rfl, rfl⟩ <;> simp [Boolean_New]
  · intro h
    cases hc : cfg.exceptions with
    | cppExceptions =>
      rw [callExclude_not_number_cpp cfg api args w h hc,
        callInclude_not_number_cpp cfg api args w h hc]
      simp
    | disabled =>
      rw [callExclude_not_number_disabled cfg api args w h hc,
        callInclude_not_number_disabled cfg api args w h hc]
      simp

/-- Concrete instance of C7 (amended): an OS that refuses every request; `exclude(1234)` and
`include(1234)` return `false`. -/
theorem os_failure_is_false_for_numeric_argument_witness :
    (callExclude cfg64NoExc refusingApi [JsValue.number 1234] (World.mk () [])).1
      = JsOutcome.value (JsValue.bool false) ∧
    (callInclude cfg64NoExc refusingApi [JsValue.number 1234] (World.mk () [])).1
      = JsOutcome.value (JsValue.bool false) :=
  have t := (os_failure_is_false_for_numeric_argument cfg64NoExc refusingApi
    [JsValue.number 1234] (World.mk () [])).1 1234 rfl
  ⟨t.2.1.mp rfl, t.2.2.1.mp rfl⟩

/-- C8: for every numeric argument and every behaviour of the operating system (success or
failure alike), one invocation of `exclude` or `include` extends the trace of OS calls by
exactly one call, the one on the derived handle with the operation's flag. -/
theorem exactly_one_os_call {σ : Type} (cfg : BuildConfig) (api : WinApi σ) (v : Int)
    (rest : List JsValue) (w : World σ) :
    (callExclude cfg api (JsValue.number v :: rest) w).2.calls
      = w.calls ++ [OsCall.mk (toHWND cfg v) WDA_EXCLUDEFROMCAPTURE] ∧
    (callInclude cfg api (JsValue.number v :: rest) w).2.calls
      = w.calls ++ [OsCall.mk (toHWND cfg v) WDA_NONE] ∧
    (callExclude cfg api (JsValue.number v :: rest) w).2.calls.length = w.calls.length + 1 ∧
    (callInclude cfg api (JsValue.number v :: rest) w).2.calls.length
      = w.calls.length + 1 := by
  simp [callExclude_number, callInclude_number]

/-- C9: `Init` returns the handle it was given; afterwards the exports object maps "exclude"
to `ExcludeFromCapture` and "include" to `IncludeInCapture`, its property names are those it
had before together with these two, every other property keeps its value, and no other
object changes.  On the fresh empty object used at module load the result has exactly the
two properties, and calling them issues the exclude-from-capture flag and the normal flag
respectively. -/
theorem init_exports_exactly_two (exports : Nat) (h : Heap) :
    (Init exports h).1 = exports ∧
    Object.Get ((Init exports h).2 exports) "exclude"
      = JsValue.func NativeFn.ExcludeFromCapture ∧
    Object.Get ((Init exports h).2 exports) "include"
      = JsValue.func NativeFn.IncludeInCapture ∧
    (∀ k : String, k ∈ Object.keys ((Init exports h).2 exports) ↔
      (k ∈ Object.keys (h exports) ∨ k = "exclude" ∨ k = "include")) ∧
    (∀ k : String, k ≠ "exclude" → k ≠ "include" →
      Object.Get ((Init exports h).2 exports) k = Object.Get (h exports) k) ∧
    (∀ r : Nat, r ≠ exports → (Init exports h).2 r = h r) ∧
    loadModule = [("exclude", JsValue.func NativeFn.ExcludeFromCapture),
                  ("include", JsValue.func NativeFn.IncludeInCapture)] ∧
    (callExclude cfg64 refusingApi [JsValue.number 1] (World.mk () [])).2.calls
      = [OsCall.mk 1 0x11] ∧
    (callInclude cfg64 refusingApi [JsValue.number 1] (World.mk () [])).2.calls
      = [OsCall.mk 1 0] := by
  refine ⟨rfl, ?_, ?_, ?_, ?_, ?_, loadModule_eq, by decide, by decide⟩
  · simp only [Init, Heap.Set, if_true]
    rw [Object.Get_Set_other _ _ _ _ (by decide), Object.Get_Set_same]
  · simp only [Init, Heap.Set, if_true]
    rw [Object.Get_Set_same]
  · intro k
    simp only [Init, Heap.Set, if_true]
    rw [Object.mem_keys_Set, Object.mem_keys_Set, or_assoc]
  · intro k h1 h2
    simp only [Init, Heap.Set, if_true]
    rw [Object.Get_Set_other _ _ _ _ h2, Object.Get_Set_other _ _ _ _ h1]
  · intro r hr
    simp [Init, Heap.Set, hr]

/-- C10: in every build the handle passed to the OS by `exclude` and by `include` is the same
function `toHWND` of the numeric argument, with no validation (the call is always made); on
a 64-bit target and for `v` in the signed 64-bit range that handle is `v mod 2 ^ 64`: `v`
itself when `v` is non-negative and `v + 2 ^ 64` when `v` is negative. -/
theorem handle_is_argument_mod_two_pow_64 {σ : Type} (cfg : BuildConfig) (api : WinApi σ)
    (v : Int) (rest : List JsValue) (w : World σ)
    (h64 : cfg.pointerBits = 64) (hlo : -(2 : Int) ^ 63 ≤ v) (hhi : v < (2 : Int) ^ 63) :
    (callExclude cfg api (JsValue.number v :: rest) w).2.calls
      = w.calls ++ [OsCall.mk (toHWND cfg v) WDA_EXCLUDEFROMCAPTURE] ∧
    (callInclude cfg api (JsValue.number v :: rest) w).2.calls
      = w.calls ++ [OsCall.mk (toHWND cfg v) WDA_NONE] ∧
    ((toHWND cfg v : Nat) : Int) = v % (2 : Int) ^ 64 ∧
    (0 ≤ v → ((toHWND cfg v : Nat) : Int) = v) ∧
    (v < 0 → ((toHWND cfg v : Nat) : Int) = v + (2 : Int) ^ 64) := by
  have hc : ((toHWND cfg v : Nat) : Int) = v % (2 : Int) ^ 64 := by
    unfold toHWND
    rw [h64, toUintptr_cast]
  refine ⟨by rw [callExclude_number], by rw [callInclude_number], hc, ?_, ?_⟩
  · intro h0
    rw [hc, emod_two_pow_64_of_nonneg v h0 hhi]
  · intro h0
    rw [hc, emod_two_pow_64_of_neg v hlo h0]

/-- Witness for C10: the argument `-1` on a 64-bit build reaches the OS as the handle
`2 ^ 64 - 1`, in `exclude` and in `include` alike. -/
theorem handle_is_argument_mod_two_pow_64_witness :
    cfg64.pointerBits = 64 ∧ -(2 : Int) ^ 63 ≤ -1 ∧ (-1 : Int) < (2 : Int) ^ 63 ∧
    ((toHWND cfg64 (-1) : Nat) : Int) = -1 + (2 : Int) ^ 64 ∧
    (callExclude cfg64 grantingApi [JsValue.number (-1)] (World.mk () [])).2.calls
      = [] ++ [OsCall.mk (toHWND cfg64 (-1)) WDA_EXCLUDEFROMCAPTURE] ∧
    (callInclude cfg64 grantingApi [JsValue.number (-1)] (World.mk () [])).2.calls
      = [] ++ [OsCall.mk (toHWND cfg64 (-1)) WDA_NONE] :=
  have t := handle_is_argument_mod_two_pow_64 cfg64 grantingApi (-1) [] (World.mk () [])
    rfl (by norm_num) (by norm_num)
  ⟨rfl, by norm_num, by norm_num, t.2.2.2.2 (by norm_num), t.1, t.2.1⟩

end DisplayAffinity
